import Mathlib

/-!
Verification of the OpenData repository's core logic: the tender risk-scoring
engine and the pollutant classifier.

Shallow embedding conventions:
* JS numbers that hold integral millisecond timestamps are modelled as `Int`
  (milliseconds since the Unix epoch, UTC); `new Date(field)` on the tender's
  ISO date strings yields exactly this value, and `getMonth()` is modelled by
  `monthOfMs` below (civil calendar from epoch days).
* Fractional JS arithmetic (`amount / 1e9`, `executionDays / 30`, `* 0.7`) is
  modelled over `ℚ`.
* `Math.ceil(a / b)` on a quotient of integral numbers is `jsCeilDiv`.
* Object-literal lookups become `if`-chains on the key string.
-/

/-- JS `Math.ceil(a / b)` for integral `a` and positive integral `b`:
the ceiling of the rational quotient. -/
def jsCeilDiv (a b : Int) : Int := -(Int.fdiv (-a) b)

/-- JS `Math.round(q)` (half toward positive infinity): `⌊q + 1/2⌋`. -/
def jsRound (q : ℚ) : Int := ⌊q + 1/2⌋

/-- The 0-indexed calendar month (0 = January .. 11 = December) of an epoch
millisecond timestamp, UTC, as returned by JS `Date.prototype.getMonth` for a
date parsed from an ISO date string. Civil-from-days computation. -/
def monthOfMs (ms : Int) : Nat :=
  let z : Int := Int.fdiv ms 86400000 + 719468
  let era : Int := Int.fdiv z 146097
  let doe : Int := z - era * 146097
  let yoe : Int := Int.fdiv (doe - Int.fdiv doe 1460 + Int.fdiv doe 36524 - Int.fdiv doe 146096) 365
  let doy : Int := doe - (365 * yoe + Int.fdiv yoe 4 - Int.fdiv yoe 100)
  let mp : Int := Int.fdiv (5 * doy + 2) 153
  let m : Int := if mp < 10 then mp + 3 else mp - 9
  (m - 1).toNat

/-- Tender record, input of `analyzeTenderRisks` (src/backend/services/tenderService.js).
Date fields hold the epoch-millisecond value of `new Date(field)`. -/
structure Tender where
  category : String
  amount : ℚ
  executionStart : Int
  executionEnd : Int
  deadline : Int
  title : String
  deriving DecidableEq, Repr

/-- A risk / warning entry pushed by the engine (`risks.push`, `warnings.push`). -/
structure RiskItem where
  type : String
  severity : String
  title : String
  description : String
  deriving DecidableEq, Repr

/-- A recommendation entry pushed by the engine (`recommendations.push`). -/
structure Recommendation where
  type : String
  title : String
  description : String
  deriving DecidableEq, Repr

/-- Output of `analyzeTenderRisks` (tenderService.js lines 199-206). -/
structure RiskAssessment where
  riskScore : Nat
  riskLevel : String
  risks : List RiskItem
  warnings : List RiskItem
  recommendations : List Recommendation
  summary : String
  deriving DecidableEq, Repr

/-- JS `toFixed(1)` of a non-negative number: one decimal digit, rounding to
nearest (ties away from zero). Used by `formatAmount`. -/
def toFixed1 (q : ℚ) : String :=
  let n : Int := ⌊q * 10 + 1/2⌋
  toString (Int.fdiv n 10) ++ "." ++ toString (n - Int.fdiv n 10 * 10)

/-- JS `toFixed(0)` of a non-negative number: round to nearest integer,
ties away from zero. Used by `formatAmount`. -/
def toFixed0 (q : ℚ) : String := toString (⌊q + 1/2⌋)

/-- JS `amount.toLocaleString` for locale ru-RU and a non-negative integral amount:
decimal digits in groups of three separated by non-breaking spaces. -/
def ruLocaleString (n : Nat) : String :=
  let rec go (fuel : Nat) (m : Nat) (acc : String) : String :=
    match fuel with
    | 0 => acc
    | fuel + 1 =>
      if m < 1000 then toString m ++ acc
      else go fuel (m / 1000) (" " ++ (toString (1000 + m % 1000)).drop 1 ++ acc)
  go (n + 1) n ""

/-- Function `formatAmount` (tenderService.js lines 248-255). -/
def formatAmount (amount : ℚ) : String :=
  if amount ≥ 1000000000 then toFixed1 (amount / 1000000000) ++ " млрд ₸"
  else if amount ≥ 1000000 then toFixed0 (amount / 1000000) ++ " млн ₸"
  else ruLocaleString amount.num.toNat ++ " ₸"

/-- Function `formatMonth` (tenderService.js lines 260-264). -/
def formatMonth (monthIndex : Nat) : String :=
  (["январь", "февраль", "март", "апрель", "май", "июнь",
    "июль", "август", "сентябрь", "октябрь", "ноябрь", "декабрь"].getD monthIndex "")

/-- Winter months (tenderService.js line 65): Nov, Dec, Jan, Feb, Mar, 0-indexed. -/
def winterMonths : List Nat := [10, 11, 0, 1, 2]

/-- Categories with high winter risk (tenderService.js line 69). -/
def winterRiskCategories : List String := ["construction"]

/-- Flag `isWinterExecution` (tenderService.js lines 61-66). -/
def isWinterExecution (t : Tender) : Bool :=
  winterMonths.contains (monthOfMs t.executionStart) ||
  winterMonths.contains (monthOfMs t.executionEnd)

/-- Trigger condition of the seasonal rule (tenderService.js line 72). -/
def seasonalHit (t : Tender) : Bool :=
  isWinterExecution t && winterRiskCategories.contains t.category

/-- Value `amountInBillions = tender.amount / 1000000000` (tenderService.js line 89). -/
def amountInBillions (t : Tender) : ℚ := t.amount / 1000000000

/-- Value `daysToDeadline` (tenderService.js line 116). -/
def daysToDeadline (t : Tender) (now : Int) : Int :=
  jsCeilDiv (t.deadline - now) 86400000

/-- Value `executionDays` (tenderService.js line 117). -/
def executionDays (t : Tender) : Int :=
  jsCeilDiv (t.executionEnd - t.executionStart) 86400000

/-- Trigger condition of the timeline-realism rule (tenderService.js lines 130-134):
construction, at least half a billion, and execution window shorter than 70% of
the heuristic three months per billion. -/
def timelineHit (t : Tender) : Bool :=
  t.category == "construction" && amountInBillions t ≥ 1/2 &&
    ((executionDays t : ℚ) / 30 < amountInBillions t * 3 * (7/10))

/-- Risks appended by the seasonal rule (tenderService.js lines 72-86). -/
def seasonalRisks (t : Tender) : List RiskItem :=
  if seasonalHit t then
    [{ type := "seasonal", severity := "high", title := "Сезонный риск",
       description := "Выполнение строительных работ запланировано на зимний период (" ++
         formatMonth (monthOfMs t.executionStart) ++ " - " ++ formatMonth (monthOfMs t.executionEnd) ++
         "). Низкие температуры могут привести к срыву сроков и снижению качества работ." }]
  else []

/-- Recommendations appended by the seasonal rule (tenderService.js lines 81-85). -/
def seasonalRecs (t : Tender) : List Recommendation :=
  if seasonalHit t then
    [{ type := "timing", title := "Перенос сроков",
       description := "Рекомендуется перенести начало работ на весенний период (апрель-май) для снижения рисков." }]
  else []

/-- Risks appended by the financial rule's first branch (tenderService.js lines 91-98). -/
def financialRisks (t : Tender) : List RiskItem :=
  if amountInBillions t ≥ 2 then
    [{ type := "financial", severity := "high", title := "Высокая стоимость контракта",
       description := "Сумма контракта " ++ formatAmount t.amount ++
         " превышает 2 млрд тенге. Контракты такого масштаба требуют усиленного контроля и поэтапной приемки работ." }]
  else []

/-- Recommendations appended by the financial rule's first branch (lines 100-104). -/
def financialRecs (t : Tender) : List Recommendation :=
  if amountInBillions t ≥ 2 then
    [{ type := "control", title := "Поэтапный контроль",
       description := "Рекомендуется разбить контракт на этапы с промежуточной приемкой и оплатой по факту выполнения." }]
  else []

/-- Warnings appended by the financial rule's `else if` branch (lines 105-113). -/
def financialWarnings (t : Tender) : List RiskItem :=
  if amountInBillions t ≥ 2 then []
  else if amountInBillions t ≥ 1 then
    [{ type := "financial", severity := "medium", title := "Значительная сумма контракта",
       description := "Сумма контракта " ++ formatAmount t.amount ++ " требует тщательной проверки поставщика." }]
  else []

/-- The deadline warning citing a concrete day count (lines 121-126). -/
def deadlineWarning (days : Int) : RiskItem :=
  { type := "deadline", severity := "medium", title := "Сжатые сроки подачи заявок",
    description := "До окончания приема заявок осталось " ++ toString days ++
      " дней. Короткие сроки могут ограничить конкуренцию." }

/-- Warnings appended by the deadline-pressure rule (tenderService.js lines 119-127). -/
def deadlineWarnings (t : Tender) (now : Int) : List RiskItem :=
  if daysToDeadline t now < 10 ∧ daysToDeadline t now > 0 then
    [deadlineWarning (daysToDeadline t now)]
  else []

/-- Risks appended by the timeline-realism rule (tenderService.js lines 130-143). -/
def timelineRisks (t : Tender) : List RiskItem :=
  if timelineHit t then
    [{ type := "timeline", severity := "high", title := "Нереалистичные сроки выполнения",
       description := "Срок выполнения (" ++ toString (jsRound ((executionDays t : ℚ) / 30)) ++
         " мес.) может быть недостаточным для контракта на " ++ formatAmount t.amount ++
         ". Есть риск срыва сроков или снижения качества." }]
  else []

/-- Trigger condition of the combined rule (tenderService.js line 146). -/
def combinedHit (t : Tender) : Bool :=
  seasonalHit t && amountInBillions t ≥ 1

/-- Risks appended by the combined rule (tenderService.js lines 146-153). -/
def combinedRisks (t : Tender) : List RiskItem :=
  if combinedHit t then
    [{ type := "combined", severity := "critical", title := "Комбинированный риск",
       description := "Крупный строительный контракт (" ++ formatAmount t.amount ++
         ") с выполнением в зимний период. Сочетание факторов значительно повышает вероятность проблем с исполнением." }]
  else []

/-- Recommendations appended by the combined rule (lines 155-159). -/
def combinedRecs (t : Tender) : List Recommendation :=
  if combinedHit t then
    [{ type := "guarantee", title := "Усиление гарантий",
       description := "Рекомендуется увеличить размер обеспечения контракта и включить штрафные санкции за срыв сроков." }]
  else []

/-- Warnings appended by the medical category advisory (tenderService.js lines 163-169). -/
def categoryWarnings (t : Tender) : List RiskItem :=
  if t.category == "medical" && amountInBillions t ≥ 1/2 then
    [{ type := "category", severity := "medium", title := "Импортное оборудование",
       description := "Медицинское оборудование часто импортируется. Учитывайте риски колебания курса валют и логистические задержки." }]
  else []

/-- Recommendations appended by the medical advisory (lines 171-175). -/
def categoryRecs (t : Tender) : List Recommendation :=
  if t.category == "medical" && amountInBillions t ≥ 1/2 then
    [{ type := "currency", title := "Валютные риски",
       description := "Рекомендуется фиксировать цену в тенге или предусмотреть механизм корректировки при изменении курса более 10%." }]
  else []

/-- Recommendation appended for the it category (tenderService.js lines 178-184). -/
def itRecs (t : Tender) : List Recommendation :=
  if t.category == "it" then
    [{ type := "support", title := "Техническая поддержка",
       description := "Убедитесь, что контракт включает гарантийное обслуживание и техническую поддержку минимум на 2 года." }]
  else []

/-- The running `riskScore` before the final clamp: the sum of all increments
added by the rules, in evaluation order (lines 73, 92, 106, 120, 135, 147). -/
def rawRiskScore (t : Tender) (now : Int) : Nat :=
  (if seasonalHit t then 35 else 0) +
  (if amountInBillions t ≥ 2 then 25 else if amountInBillions t ≥ 1 then 15 else 0) +
  (if daysToDeadline t now < 10 ∧ daysToDeadline t now > 0 then 15 else 0) +
  (if timelineHit t then 20 else 0) +
  (if combinedHit t then 20 else 0)

/-- The `risks` array at return, in push order (rules 1, 2, 4, 5). -/
def risksList (t : Tender) : List RiskItem :=
  seasonalRisks t ++ financialRisks t ++ timelineRisks t ++ combinedRisks t

/-- The `warnings` array at return, in push order (rules 2, 3, 6). -/
def warningsList (t : Tender) (now : Int) : List RiskItem :=
  financialWarnings t ++ deadlineWarnings t now ++ categoryWarnings t

/-- The `recommendations` array at return, in push order (rules 1, 2, 5, 6). -/
def recommendationsList (t : Tender) : List Recommendation :=
  seasonalRecs t ++ financialRecs t ++ combinedRecs t ++ categoryRecs t ++ itRecs t

/-- Lookup `levelText[riskLevel]` in generateSummary (tenderService.js lines 213-217). -/
def levelText (level : String) : String :=
  if level = "low" then "низкий"
  else if level = "medium" then "средний"
  else if level = "high" then "высокий"
  else "undefined"

/-- Function `generateSummary` (tenderService.js lines 212-243). -/
def generateSummary (tender : Tender) (riskScore : Nat) (riskLevel : String)
    (risks warnings : List RiskItem) : String :=
  let header := "**Общая оценка риска: " ++ toString riskScore ++ "% (" ++ levelText riskLevel ++ ")**\n\n"
  if risks.length = 0 ∧ warnings.length = 0 then
    header ++ "Тендер \"" ++ tender.title ++ "\" не имеет существенных рисков. Рекомендуется стандартная процедура проверки поставщика."
  else
    header ++ "Тендер \"" ++ tender.title ++ "\" требует внимания.\n\n" ++
    (if risks.length > 0 then
      "**Выявлено критических рисков: " ++ toString risks.length ++ "**\n" ++
      risks.foldl (fun acc r => acc ++ "- " ++ r.title ++ "\n") "" ++ "\n"
     else "") ++
    (if warnings.length > 0 then
      "**Предупреждений: " ++ toString warnings.length ++ "**\n" ++
      warnings.foldl (fun acc w => acc ++ "- " ++ w.title ++ "\n") ""
     else "")

/-- Function `analyzeTenderRisks` (tenderService.js lines 49-207). The internal
`const now = new Date()` wall-clock read of line 55 is made an explicit
parameter `now` (epoch milliseconds) of the embedding. -/
def analyzeTenderRisks (t : Tender) (now : Int) : RiskAssessment :=
  let riskScore := min (rawRiskScore t now) 100
  let riskLevel :=
    if riskScore ≥ 60 then "high"
    else if riskScore ≥ 30 then "medium"
    else "low"
  { riskScore := riskScore
    riskLevel := riskLevel
    risks := risksList t
    warnings := warningsList t now
    recommendations := recommendationsList t
    summary := generateSummary t riskScore riskLevel (risksList t) (warningsList t now) }

/-- The threshold table of `getPollutantStatus` (frontend/js/main.js lines 209-215),
an object-literal lookup: `good` and `moderate` cut points per pollutant kind. -/
def pollutantThresholds (type : String) : Option (ℚ × ℚ) :=
  if type = "pm25" then some (15, 35)
  else if type = "pm10" then some (45, 75)
  else if type = "no2" then some (40, 100)
  else if type = "so2" then some (20, 80)
  else if type = "co" then some (4, 10)
  else none

/-- Function `getPollutantStatus` (frontend/js/main.js lines 208-223). -/
def getPollutantStatus (type : String) (value : ℚ) : String :=
  match pollutantThresholds type with
  | none => "unknown"
  | some (good, moderate) =>
    if value ≤ good then "good"
    else if value ≤ moderate then "moderate"
    else "poor"

/-- The body of the HTTP response in `aiAnalyzeTender`, abstracted to what the
code reads from it: either `response.json()` rejects, or it yields data from
which the code takes `data.choices[0]?.message?.content` (tenderService.js
lines 337-338) — an optional string. -/
inductive FetchBody where
  | parseFailure (msg : String)
  | parsed (content : Option String)
  deriving DecidableEq, Repr

/-- Outcome of the `fetch` call in `aiAnalyzeTender` (tenderService.js line 315):
either the promise rejects (network error) or an HTTP response arrives with an
`ok` flag, a status code and a body. -/
inductive FetchOutcome where
  | networkError (msg : String)
  | httpResponse (ok : Bool) (status : Nat) (body : FetchBody)
  deriving DecidableEq, Repr

/-- Result record of `aiAnalyzeTender` (tenderService.js lines 275-280, 343-348,
354-360). -/
structure AiAnalysisResult where
  success : Bool
  analysis : String
  details : RiskAssessment
  source : String
  error : Option String
  deriving DecidableEq, Repr

/-- Function `aiAnalyzeTender` (tenderService.js lines 269-362). The ambient inputs are
made explicit: `now` (the wall clock read by the inner `analyzeTenderRisks` and
the prompt), `apiKey` (`process.env.OPENROUTER_API_KEY`, `none` when unset),
and `outcome` (what the `fetch` to OpenRouter does). JS `!apiKey` is true for
both an absent and an empty-string key; `content || fallback` falls through on
a missing or empty string. -/
def aiAnalyzeTender (t : Tender) (now : Int) (apiKey : Option String)
    (outcome : FetchOutcome) : AiAnalysisResult :=
  if apiKey = none ∨ apiKey = some "" then
    let localAnalysis := analyzeTenderRisks t now
    { success := true, analysis := localAnalysis.summary, details := localAnalysis,
      source := "local", error := none }
  else
    match outcome with
    | .networkError msg =>
      let localAnalysis := analyzeTenderRisks t now
      { success := true, analysis := localAnalysis.summary, details := localAnalysis,
        source := "local", error := some msg }
    | .httpResponse ok status body =>
      if ok = false then
        let localAnalysis := analyzeTenderRisks t now
        { success := true, analysis := localAnalysis.summary, details := localAnalysis,
          source := "local", error := some ("OpenRouter API error: " ++ toString status) }
      else
        match body with
        | .parseFailure msg =>
          let localAnalysis := analyzeTenderRisks t now
          { success := true, analysis := localAnalysis.summary, details := localAnalysis,
            source := "local", error := some msg }
        | .parsed content =>
          let aiResponse :=
            match content with
            | some c => if c = "" then "Не удалось получить анализ" else c
            | none => "Не удалось получить анализ"
          let localAnalysis := analyzeTenderRisks t now
          { success := true, analysis := aiResponse, details := localAnalysis,
            source := "ai", error := none }

/-- The failure condition of the external AI call as the spec describes it,
plus the unconfigured-credential case: no (or empty) key, rejected fetch,
non-success response, or a body that fails to parse. -/
def externalCallFails (apiKey : Option String) (outcome : FetchOutcome) : Prop :=
  apiKey = none ∨ apiKey = some "" ∨
  (∃ msg, outcome = .networkError msg) ∨
  (∃ status body, outcome = .httpResponse false status body) ∨
  (∃ status msg, outcome = .httpResponse true status (.parseFailure msg))

/-- The `riskLevel` derivation from the clamped score (tenderService.js lines 190-197). -/
def riskLevelOf (score : Nat) : String :=
  if score ≥ 60 then "high"
  else if score ≥ 30 then "medium"
  else "low"

/-! Concrete tenders used as test vectors. Epoch milliseconds:
2025-01-15 = 1736899200000, 2025-03-01 = 1740787200000,
2025-06-01 = 1748736000000, 2025-08-01 = 1754006400000,
2025-01-05 = 1736035200000, 2025-01-01 = 1735689600000,
2025-02-01 = 1738368000000. One day = 86400000. -/

/-- The spec's end-to-end scenario tender: construction, 2.5 billion, executed
Jan-15 to Mar-01, deadline five days after the evaluation time. -/
def scenarioTender (now : Int) : Tender :=
  { category := "construction", amount := 2500000000,
    executionStart := 1736899200000, executionEnd := 1740787200000,
    deadline := now + 5 * 86400000, title := "Сценарий" }

/-- A mid-range tender: amount 1.5 billion, no construction, summer execution,
deadline far in the past relative to the chosen evaluation time. -/
def midFinancialTender : Tender :=
  { category := "other", amount := 1500000000,
    executionStart := 1748736000000, executionEnd := 1754006400000,
    deadline := 1736035200000, title := "Средний" }

/-- A medical tender of 0.7 billion with a long-past deadline. -/
def medicalTender : Tender :=
  { category := "medical", amount := 700000000,
    executionStart := 1748736000000, executionEnd := 1754006400000,
    deadline := 1736035200000, title := "Медицинский" }

/-- A construction tender reaching exactly score 60 (25 financial + 15 deadline
+ 20 timeline) with a summer execution window. -/
def score60Tender (now : Int) : Tender :=
  { category := "construction", amount := 2500000000,
    executionStart := 1748736000000, executionEnd := 1754006400000,
    deadline := now + 5 * 86400000, title := "Шестьдесят" }

/-- A tender reaching exactly score 30 (15 financial + 15 deadline). -/
def score30Tender (now : Int) : Tender :=
  { category := "other", amount := 1500000000,
    executionStart := 1748736000000, executionEnd := 1754006400000,
    deadline := now + 5 * 86400000, title := "Тридцать" }

/-- A tender with no risk factors except a deadline that is in the near future
at one evaluation instant and long past at another. -/
def clockProbeTender : Tender :=
  { category := "other", amount := 0,
    executionStart := 1748736000000, executionEnd := 1754006400000,
    deadline := 1736035200000, title := "Проба" }

/-- The warning emitted by the medical category advisory. -/
def medicalWarningItem : RiskItem :=
  { type := "category", severity := "medium", title := "Импортное оборудование",
    description := "Медицинское оборудование часто импортируется. Учитывайте риски колебания курса валют и логистические задержки." }

lemma daysToDeadline_eq_five (t : Tender) (now : Int) (h : t.deadline = now + 5 * 86400000) :
    daysToDeadline t now = 5 := by
  unfold daysToDeadline jsCeilDiv
  rw [h]
  have h2 : now + 5 * 86400000 - now = (432000000 : Int) := by ring
  rw [h2]
  decide

lemma scenario_seasonalHit (now : Int) : seasonalHit (scenarioTender now) = true := rfl

lemma scenario_executionDays (now : Int) : executionDays (scenarioTender now) = 45 := rfl

lemma scenario_amount2 (now : Int) : amountInBillions (scenarioTender now) ≥ 2 := by
  norm_num [amountInBillions, scenarioTender]

lemma scenario_timelineHit (now : Int) : timelineHit (scenarioTender now) = true := by
  unfold timelineHit
  rw [scenario_executionDays]
  norm_num [scenarioTender, amountInBillions]

lemma scenario_combinedHit (now : Int) : combinedHit (scenarioTender now) = true := by
  simp only [combinedHit, scenario_seasonalHit, Bool.true_and]
  norm_num [amountInBillions, scenarioTender]

lemma scenario_daysToDeadline (now : Int) : daysToDeadline (scenarioTender now) now = 5 :=
  daysToDeadline_eq_five _ _ rfl

lemma scenario_rawScore (now : Int) : rawRiskScore (scenarioTender now) now = 115 := by
  norm_num [rawRiskScore, scenario_seasonalHit, scenario_timelineHit, scenario_combinedHit,
    scenario_daysToDeadline, scenario_amount2]

/-- Claim C7: the pollutant classifier returns good below or at the kind's good
threshold, moderate at or below the moderate threshold, else poor, with the
fixed tables pm25 (15, 35), pm10 (45, 75), no2 (40, 100), so2 (20, 80),
co (4, 10); boundaries are inclusive and an unknown kind yields unknown. -/
theorem getPollutantStatus_thresholds :
    (∀ v : ℚ, getPollutantStatus "pm25" v =
      if v ≤ 15 then "good" else if v ≤ 35 then "moderate" else "poor") ∧
    (∀ v : ℚ, getPollutantStatus "pm10" v =
      if v ≤ 45 then "good" else if v ≤ 75 then "moderate" else "poor") ∧
    (∀ v : ℚ, getPollutantStatus "no2" v =
      if v ≤ 40 then "good" else if v ≤ 100 then "moderate" else "poor") ∧
    (∀ v : ℚ, getPollutantStatus "so2" v =
      if v ≤ 20 then "good" else if v ≤ 80 then "moderate" else "poor") ∧
    (∀ v : ℚ, getPollutantStatus "co" v =
      if v ≤ 4 then "good" else if v ≤ 10 then "moderate" else "poor") ∧
    getPollutantStatus "pm25" 15 = "good" ∧
    getPollutantStatus "pm25" (1501/100) = "moderate" ∧
    getPollutantStatus "pm25" 35 = "moderate" ∧
    getPollutantStatus "pm25" (3501/100) = "poor" ∧
    (∀ (type : String) (v : ℚ),
      type ∉ (["pm25", "pm10", "no2", "so2", "co"] : List String) →
      getPollutantStatus type v = "unknown") := by
  refine ⟨fun v => rfl, fun v => rfl, fun v => rfl, fun v => rfl, fun v => rfl,
    by decide, by norm_num [getPollutantStatus, pollutantThresholds],
    by decide, by norm_num [getPollutantStatus, pollutantThresholds], ?_⟩
  intro ty v h
  simp only [List.mem_cons, List.not_mem_nil, or_false, not_or] at h
  obtain ⟨h1, h2, h3, h4, h5⟩ := h
  simp [getPollutantStatus, pollutantThresholds, h1, h2, h3, h4, h5]

/-- Witness for the unknown-kind hypothesis of the classifier theorem. -/
theorem getPollutantStatus_thresholds_witness :
    "nox" ∉ (["pm25", "pm10", "no2", "so2", "co"] : List String) ∧
    getPollutantStatus "nox" 0 = "unknown" :=
  ⟨by decide,
   getPollutantStatus_thresholds.2.2.2.2.2.2.2.2.2 "nox" 0 (by decide)⟩

lemma score30_rawScore : rawRiskScore (score30Tender 1735689600000) 1735689600000 = 30 := by
  have hs : seasonalHit (score30Tender 1735689600000) = false := by decide
  have htl : timelineHit (score30Tender 1735689600000) = false := by decide
  have hc : combinedHit (score30Tender 1735689600000) = false := by decide
  have hd : daysToDeadline (score30Tender 1735689600000) 1735689600000 = 5 :=
    daysToDeadline_eq_five _ _ rfl
  have ha2 : ¬(amountInBillions (score30Tender 1735689600000) ≥ 2) := by
    norm_num [amountInBillions, score30Tender]
  have ha1 : amountInBillions (score30Tender 1735689600000) ≥ 1 := by
    norm_num [amountInBillions, score30Tender]
  norm_num [rawRiskScore, hs, htl, hc, hd, ha2, ha1]

lemma score60_rawScore : rawRiskScore (score60Tender 1735689600000) 1735689600000 = 60 := by
  have hs : seasonalHit (score60Tender 1735689600000) = false := by decide
  have he : executionDays (score60Tender 1735689600000) = 61 := by decide
  have htl : timelineHit (score60Tender 1735689600000) = true := by
    unfold timelineHit
    rw [he]
    norm_num [score60Tender, amountInBillions]
  have hc : combinedHit (score60Tender 1735689600000) = false := by decide
  have hd : daysToDeadline (score60Tender 1735689600000) 1735689600000 = 5 :=
    daysToDeadline_eq_five _ _ rfl
  have ha2 : amountInBillions (score60Tender 1735689600000) ≥ 2 := by
    norm_num [amountInBillions, score60Tender]
  norm_num [rawRiskScore, hs, htl, hc, hd, ha2]

/-- Claim C4: riskLevel is derived from the clamped score by the exact cutoffs
low below 30, medium from 30 to 59, high from 60 on; scores 30 and 60 are
realized by concrete tenders with the expected levels. -/
theorem riskLevel_exact_boundaries :
    (∀ (t : Tender) (now : Int),
      (analyzeTenderRisks t now).riskLevel =
        riskLevelOf (analyzeTenderRisks t now).riskScore) ∧
    riskLevelOf 29 = "low" ∧ riskLevelOf 30 = "medium" ∧
    riskLevelOf 59 = "medium" ∧ riskLevelOf 60 = "high" ∧
    (analyzeTenderRisks (score30Tender 1735689600000) 1735689600000).riskScore = 30 ∧
    (analyzeTenderRisks (score30Tender 1735689600000) 1735689600000).riskLevel = "medium" ∧
    (analyzeTenderRisks (score60Tender 1735689600000) 1735689600000).riskScore = 60 ∧
    (analyzeTenderRisks (score60Tender 1735689600000) 1735689600000).riskLevel = "high" := by
  refine ⟨fun t now => rfl, rfl, rfl, rfl, rfl, ?_, ?_, ?_, ?_⟩
  · simp only [analyzeTenderRisks, score30_rawScore]; decide
  · simp only [analyzeTenderRisks, score30_rawScore]; decide
  · simp only [analyzeTenderRisks, score60_rawScore]; decide
  · simp only [analyzeTenderRisks, score60_rawScore]; decide

/-- Claim C3: every assessment's riskScore lies in the interval from 0 to 100;
the worst-case tender triggering rules 1 through 5 has raw sum 115, clamped to
exactly 100 with level high. -/
theorem riskScore_clamped_to_100 :
    (∀ (t : Tender) (now : Int),
      0 ≤ (analyzeTenderRisks t now).riskScore ∧
      (analyzeTenderRisks t now).riskScore ≤ 100) ∧
    rawRiskScore (scenarioTender 1735689600000) 1735689600000 = 115 ∧
    (analyzeTenderRisks (scenarioTender 1735689600000) 1735689600000).riskScore = 100 ∧
    (analyzeTenderRisks (scenarioTender 1735689600000) 1735689600000).riskLevel = "high" := by
  refine ⟨fun t now => ⟨Nat.zero_le _, Nat.min_le_right _ _⟩, scenario_rawScore _, ?_, ?_⟩
  · simp only [analyzeTenderRisks, scenario_rawScore]; decide
  · simp only [analyzeTenderRisks, scenario_rawScore]; decide

lemma clockProbe_rawScore_near : rawRiskScore clockProbeTender 1735689600000 = 15 := by
  have hs : seasonalHit clockProbeTender = false := by decide
  have htl : timelineHit clockProbeTender = false := by decide
  have hc : combinedHit clockProbeTender = false := by decide
  have hd : daysToDeadline clockProbeTender 1735689600000 = 4 := by decide
  have ha2 : ¬(amountInBillions clockProbeTender ≥ 2) := by
    norm_num [amountInBillions, clockProbeTender]
  have ha1 : ¬(amountInBillions clockProbeTender ≥ 1) := by
    norm_num [amountInBillions, clockProbeTender]
  norm_num [rawRiskScore, hs, htl, hc, hd, ha2, ha1]

lemma clockProbe_rawScore_late : rawRiskScore clockProbeTender 1738368000000 = 0 := by
  have hs : seasonalHit clockProbeTender = false := by decide
  have htl : timelineHit clockProbeTender = false := by decide
  have hc : combinedHit clockProbeTender = false := by decide
  have hd : daysToDeadline clockProbeTender 1738368000000 = -27 := by decide
  have ha2 : ¬(amountInBillions clockProbeTender ≥ 2) := by
    norm_num [amountInBillions, clockProbeTender]
  have ha1 : ¬(amountInBillions clockProbeTender ≥ 1) := by
    norm_num [amountInBillions, clockProbeTender]
  norm_num [rawRiskScore, hs, htl, hc, hd, ha2, ha1]

/-- Claim C2: the code reads the wall clock inside the engine (line 55,
new Date()) rather than receiving now as a parameter; with that clock read
made the explicit argument of the embedding, the same tender evaluated at two
clock instants yields different assessments, so the JS function of the tender
alone is not a deterministic function of its explicit inputs. -/
theorem analyzeTenderRisks_reads_clock :
    (analyzeTenderRisks clockProbeTender 1735689600000).riskScore = 15 ∧
    (analyzeTenderRisks clockProbeTender 1738368000000).riskScore = 0 ∧
    analyzeTenderRisks clockProbeTender 1735689600000 ≠
      analyzeTenderRisks clockProbeTender 1738368000000 := by
  have h1 : (analyzeTenderRisks clockProbeTender 1735689600000).riskScore = 15 := by
    simp only [analyzeTenderRisks, clockProbe_rawScore_near]; decide
  have h2 : (analyzeTenderRisks clockProbeTender 1738368000000).riskScore = 0 := by
    simp only [analyzeTenderRisks, clockProbe_rawScore_late]; decide
  refine ⟨h1, h2, fun h => ?_⟩
  have h3 := congrArg RiskAssessment.riskScore h
  rw [h1, h2] at h3
  exact absurd h3 (by decide)

/-- Claim C1, amended: for the end-to-end scenario tender (construction,
2.5 billion, execution Jan-15 to Mar-01, deadline five days after now), the
assessment contains findings for rules 1 (seasonal), 2 (financial), 4
(timeline) and 5 (combined) plus the rule 3 deadline warning; the raw sum is
35+25+15+20+20 = 115, so the riskScore is the clamped 100 with level high. -/
theorem scenario_assessment :
    ∀ now : Int,
      (analyzeTenderRisks (scenarioTender now) now).risks.map (fun r => r.type) =
        ["seasonal", "financial", "timeline", "combined"] ∧
      (analyzeTenderRisks (scenarioTender now) now).warnings.map (fun w => w.type) =
        ["deadline"] ∧
      rawRiskScore (scenarioTender now) now = 115 ∧
      (analyzeTenderRisks (scenarioTender now) now).riskScore = 100 ∧
      (analyzeTenderRisks (scenarioTender now) now).riskLevel = "high" := by
  intro now
  refine ⟨?_, ?_, scenario_rawScore now, ?_, ?_⟩
  · simp [analyzeTenderRisks, risksList, seasonalRisks, financialRisks, timelineRisks,
      combinedRisks, scenario_seasonalHit, scenario_amount2, scenario_timelineHit,
      scenario_combinedHit]
  · have hfw : financialWarnings (scenarioTender now) = [] := by
      simp [financialWarnings, scenario_amount2]
    have hcat : categoryWarnings (scenarioTender now) = [] := rfl
    simp [analyzeTenderRisks, warningsList, hfw, hcat, deadlineWarnings,
      scenario_daysToDeadline, deadlineWarning]
  · simp only [analyzeTenderRisks, scenario_rawScore]; decide
  · simp only [analyzeTenderRisks, scenario_rawScore]; decide

/-- Counterexample to claim C1 as stated: at a concrete evaluation instant the
scenario tender's riskScore is not 95, and a rule 4 timeline finding is
present in the assessment. -/
theorem scenario_riskScore_not_95 :
    (analyzeTenderRisks (scenarioTender 1735689600000) 1735689600000).riskScore ≠ 95 ∧
    ((analyzeTenderRisks (scenarioTender 1735689600000) 1735689600000).risks.any
      (fun r => r.type == "timeline")) = true := by
  constructor
  · simp only [analyzeTenderRisks, scenario_rawScore]; decide
  · simp [analyzeTenderRisks, risksList, seasonalRisks, financialRisks, timelineRisks,
      combinedRisks, scenario_seasonalHit, scenario_amount2, scenario_timelineHit,
      scenario_combinedHit]

lemma risksList_any_financial (t : Tender) :
    (risksList t).any (fun r => r.type == "financial") = decide (amountInBillions t ≥ 2) := by
  unfold risksList seasonalRisks financialRisks timelineRisks combinedRisks
  split_ifs <;> simp_all

lemma warningsList_any_financial (t : Tender) (now : Int) :
    (warningsList t now).any (fun w => w.type == "financial") =
      (decide (amountInBillions t ≥ 1) && !decide (amountInBillions t ≥ 2)) := by
  unfold warningsList financialWarnings deadlineWarnings categoryWarnings
  split_ifs <;> simp_all [deadlineWarning]

lemma midFinancial_rawScore : rawRiskScore midFinancialTender 1738368000000 = 15 := by
  have hs : seasonalHit midFinancialTender = false := by decide
  have htl : timelineHit midFinancialTender = false := by decide
  have hc : combinedHit midFinancialTender = false := by decide
  have hd : daysToDeadline midFinancialTender 1738368000000 = -27 := by decide
  have ha2 : ¬(amountInBillions midFinancialTender ≥ 2) := by
    norm_num [amountInBillions, midFinancialTender]
  have ha1 : amountInBillions midFinancialTender ≥ 1 := by
    norm_num [amountInBillions, midFinancialTender]
  norm_num [rawRiskScore, hs, htl, hc, hd, ha2, ha1]

/-- Claim C5: the two financial branches are mutually exclusive — no assessment
ever carries both the high financial risk finding and the medium financial
warning; a 1.5 billion tender gets only the medium warning and its score
contribution is 15. -/
theorem financial_branches_exclusive :
    (∀ (t : Tender) (now : Int),
      (((analyzeTenderRisks t now).risks.any (fun r => r.type == "financial")) &&
       ((analyzeTenderRisks t now).warnings.any (fun w => w.type == "financial"))) = false) ∧
    ((analyzeTenderRisks midFinancialTender 1738368000000).risks.any
      (fun r => r.type == "financial")) = false ∧
    ((analyzeTenderRisks midFinancialTender 1738368000000).warnings.filter
      (fun w => w.type == "financial")).length = 1 ∧
    (analyzeTenderRisks midFinancialTender 1738368000000).riskScore = 15 := by
  have ha2 : ¬(amountInBillions midFinancialTender ≥ 2) := by
    norm_num [amountInBillions, midFinancialTender]
  have ha1 : amountInBillions midFinancialTender ≥ 1 := by
    norm_num [amountInBillions, midFinancialTender]
  have hd : daysToDeadline midFinancialTender 1738368000000 = -27 := by decide
  refine ⟨?_, ?_, ?_, ?_⟩
  · intro t now
    simp only [analyzeTenderRisks, risksList_any_financial, warningsList_any_financial]
    by_cases h : amountInBillions t ≥ 2 <;> simp [h]
  · simp only [analyzeTenderRisks, risksList_any_financial]
    simp [ha2]
  · have hcat : categoryWarnings midFinancialTender = [] := rfl
    have hdl : deadlineWarnings midFinancialTender 1738368000000 = [] := by
      simp [deadlineWarnings, hd]
    have hfw : financialWarnings midFinancialTender =
        [{ type := "financial", severity := "medium", title := "Значительная сумма контракта",
           description := "Сумма контракта " ++ formatAmount midFinancialTender.amount ++
             " требует тщательной проверки поставщика." }] := by
      simp [financialWarnings, ha2, ha1]
    simp [analyzeTenderRisks, warningsList, hcat, hdl, hfw]
  · simp only [analyzeTenderRisks, midFinancial_rawScore]; decide

/-- Claim C9: every risk finding has severity high or critical, the combined
finding is the only critical one, and every warning has severity medium — the
severity sets of the two sequences are disjoint. -/
theorem severities_partitioned :
    ∀ (t : Tender) (now : Int),
      ((analyzeTenderRisks t now).risks.all
        (fun r => (r.severity == "high" || r.severity == "critical") &&
          ((r.severity == "critical") == (r.type == "combined")))) = true ∧
      ((analyzeTenderRisks t now).warnings.all
        (fun w => w.severity == "medium")) = true := by
  intro t now
  constructor
  · simp only [analyzeTenderRisks]
    unfold risksList seasonalRisks financialRisks timelineRisks combinedRisks
    split_ifs <;> rfl
  · simp only [analyzeTenderRisks]
    unfold warningsList financialWarnings deadlineWarnings categoryWarnings
    split_ifs <;> rfl

/-- Claim C6: the deadline-pressure rule fires exactly when daysToDeadline is
strictly between 0 and 10 — the filtered deadline warnings equal a singleton
citing the exact day count under that condition and are empty otherwise (in
particular for a deadline that is today or already passed) — and the rule
contributes exactly 15 to the raw score relative to the same tender with the
deadline rule disarmed. -/
theorem deadline_rule_exact_window :
    ∀ (t : Tender) (now : Int),
      ((analyzeTenderRisks t now).warnings.filter (fun w => w.type == "deadline") =
        if daysToDeadline t now < 10 ∧ daysToDeadline t now > 0 then
          [deadlineWarning (daysToDeadline t now)]
        else []) ∧
      rawRiskScore t now =
        rawRiskScore { t with deadline := now } now +
          (if daysToDeadline t now < 10 ∧ daysToDeadline t now > 0 then 15 else 0) := by
  intro t now
  constructor
  · have h1 : (financialWarnings t).filter (fun w => w.type == "deadline") = [] := by
      unfold financialWarnings; split_ifs <;> rfl
    have h2 : (categoryWarnings t).filter (fun w => w.type == "deadline") = [] := by
      unfold categoryWarnings; split_ifs <;> rfl
    have h3 : (deadlineWarnings t now).filter (fun w => w.type == "deadline") =
        deadlineWarnings t now := by
      unfold deadlineWarnings; split_ifs <;> rfl
    simp only [analyzeTenderRisks, warningsList, List.filter_append, h1, h2, h3,
      List.nil_append, List.append_nil]
    rfl
  · have e1 : seasonalHit { t with deadline := now } = seasonalHit t := rfl
    have e2 : amountInBillions { t with deadline := now } = amountInBillions t := rfl
    have e3 : timelineHit { t with deadline := now } = timelineHit t := rfl
    have e4 : combinedHit { t with deadline := now } = combinedHit t := rfl
    have hdz : daysToDeadline { t with deadline := now } now = 0 := by
      show jsCeilDiv (now - now) 86400000 = 0
      rw [sub_self]
      decide
    simp only [rawRiskScore, e1, e2, e3, e4, hdz]
    norm_num
    ring

lemma analyze_riskScore (t : Tender) (now : Int) :
    (analyzeTenderRisks t now).riskScore = min (rawRiskScore t now) 100 := rfl

lemma analyze_riskLevel (t : Tender) (now : Int) :
    (analyzeTenderRisks t now).riskLevel = riskLevelOf (min (rawRiskScore t now) 100) := rfl

lemma analyze_warnings (t : Tender) (now : Int) :
    (analyzeTenderRisks t now).warnings = warningsList t now := rfl

lemma analyze_recommendations (t : Tender) (now : Int) :
    (analyzeTenderRisks t now).recommendations = recommendationsList t := rfl

lemma analyze_summary (t : Tender) (now : Int) :
    (analyzeTenderRisks t now).summary =
      generateSummary t (min (rawRiskScore t now) 100)
        (riskLevelOf (min (rawRiskScore t now) 100)) (risksList t) (warningsList t now) := rfl

lemma medical_amount2 : ¬(amountInBillions medicalTender ≥ 2) := by
  norm_num [amountInBillions, medicalTender]

lemma medical_amount1 : ¬(amountInBillions medicalTender ≥ 1) := by
  norm_num [amountInBillions, medicalTender]

lemma medical_amount05 : (2 : ℚ)⁻¹ ≤ amountInBillions medicalTender := by
  norm_num [amountInBillions, medicalTender]

lemma medicalTender_category : medicalTender.category = "medical" := rfl

/-- Claim C10: a medical tender between half a billion and one billion with the
deadline rule off scores 0 with level low, yet carries exactly the one medium
category warning and a currency recommendation; concretely its summary is not
the no-significant-risk text. -/
theorem medical_zero_score_nonempty_warnings :
    (∀ (t : Tender) (now : Int),
      t.category = "medical" →
      (500000000 : ℚ) ≤ t.amount →
      t.amount < 1000000000 →
      ¬(daysToDeadline t now < 10 ∧ daysToDeadline t now > 0) →
      (analyzeTenderRisks t now).riskScore = 0 ∧
      (analyzeTenderRisks t now).riskLevel = "low" ∧
      (analyzeTenderRisks t now).warnings = [medicalWarningItem] ∧
      ((analyzeTenderRisks t now).recommendations.any (fun r => r.type == "currency")) = true ∧
      (analyzeTenderRisks t now).warnings ≠ []) ∧
    (analyzeTenderRisks medicalTender 1738368000000).summary ≠
      generateSummary medicalTender 0 "low" [] [] := by
  constructor
  · intro t now h1 h2 h3 h4
    have hpos : (0 : ℚ) < 1000000000 := by norm_num
    have ha2 : ¬(amountInBillions t ≥ 2) := by
      unfold amountInBillions
      rw [ge_iff_le, le_div_iff₀ hpos]
      intro hx
      linarith
    have ha1 : ¬(amountInBillions t ≥ 1) := by
      unfold amountInBillions
      rw [ge_iff_le, le_div_iff₀ hpos]
      intro hx
      linarith
    have ha05 : (2 : ℚ)⁻¹ ≤ amountInBillions t := by
      unfold amountInBillions
      rw [le_div_iff₀ hpos]
      linarith
    have hs : seasonalHit t = false := by
      simp [seasonalHit, winterRiskCategories, h1]
    have htl : timelineHit t = false := by
      simp [timelineHit, h1]
    have hc : combinedHit t = false := by
      simp [combinedHit, hs]
    have hraw : rawRiskScore t now = 0 := by
      simp [rawRiskScore, hs, htl, hc, ha2, ha1, h4]
    have hw : (analyzeTenderRisks t now).warnings = [medicalWarningItem] := by
      rw [analyze_warnings]
      simp [warningsList, financialWarnings, deadlineWarnings, categoryWarnings,
        ha2, ha1, h4, h1, ha05, medicalWarningItem]
    refine ⟨?_, ?_, hw, ?_, ?_⟩
    · rw [analyze_riskScore, hraw]
      omega
    · rw [analyze_riskLevel, hraw]
      have hmin : (0 : Nat) ⊓ 100 = 0 := by omega
      rw [hmin]
      rfl
    · rw [analyze_recommendations]
      simp [recommendationsList, seasonalRecs, financialRecs, combinedRecs,
        categoryRecs, itRecs, hs, ha2, hc, h1, ha05]
    · simp [hw]
  · have hsm : seasonalHit medicalTender = false := by decide
    have htlm : timelineHit medicalTender = false := by decide
    have hcm : combinedHit medicalTender = false := by decide
    have hdm : daysToDeadline medicalTender 1738368000000 = -27 := by decide
    have hrawm : rawRiskScore medicalTender 1738368000000 = 0 := by
      norm_num [rawRiskScore, hsm, htlm, hcm, hdm, medical_amount2, medical_amount1]
    have hrl : risksList medicalTender = [] := by
      simp [risksList, seasonalRisks, financialRisks, timelineRisks, combinedRisks,
        hsm, htlm, hcm, medical_amount2]
    have hwl : warningsList medicalTender 1738368000000 = [medicalWarningItem] := by
      have hfin : financialWarnings medicalTender = [] := by
        simp [financialWarnings, medical_amount2, medical_amount1]
      have hdl : deadlineWarnings medicalTender 1738368000000 = [] := by
        simp [deadlineWarnings, hdm]
      have hcat : categoryWarnings medicalTender = [medicalWarningItem] := by
        simp [categoryWarnings, medicalTender_category, medical_amount05, medicalWarningItem]
      simp [warningsList, hfin, hdl, hcat]
    rw [analyze_summary, hrawm, hrl, hwl]
    decide

/-- Witness for the hypotheses of the medical-advisory theorem: the concrete
medical tender satisfies them at the chosen evaluation instant. -/
theorem medical_zero_score_nonempty_warnings_witness :
    medicalTender.category = "medical" ∧
    (500000000 : ℚ) ≤ medicalTender.amount ∧
    medicalTender.amount < 1000000000 ∧
    ¬(daysToDeadline medicalTender 1738368000000 < 10 ∧
      daysToDeadline medicalTender 1738368000000 > 0) ∧
    ((analyzeTenderRisks medicalTender 1738368000000).riskScore = 0 ∧
     (analyzeTenderRisks medicalTender 1738368000000).riskLevel = "low" ∧
     (analyzeTenderRisks medicalTender 1738368000000).warnings = [medicalWarningItem] ∧
     ((analyzeTenderRisks medicalTender 1738368000000).recommendations.any
       (fun r => r.type == "currency")) = true ∧
     (analyzeTenderRisks medicalTender 1738368000000).warnings ≠ []) :=
  ⟨rfl, by norm_num [medicalTender], by norm_num [medicalTender], by decide,
   medical_zero_score_nonempty_warnings.1 medicalTender 1738368000000 rfl
     (by norm_num [medicalTender]) (by norm_num [medicalTender]) (by decide)⟩

/-- Counterexample to claim C8 as stated: with a key configured and an HTTP
success whose parsed body lacks the message content — a malformed response —
the result reports source ai with a fixed placeholder text, not the local
fallback. -/
theorem aiAnalyzeTender_malformed_not_local :
    (aiAnalyzeTender medicalTender 1738368000000 (some "key")
      (FetchOutcome.httpResponse true 200 (FetchBody.parsed none))).source = "ai" ∧
    (aiAnalyzeTender medicalTender 1738368000000 (some "key")
      (FetchOutcome.httpResponse true 200 (FetchBody.parsed none))).source ≠ "local" ∧
    (aiAnalyzeTender medicalTender 1738368000000 (some "key")
      (FetchOutcome.httpResponse true 200 (FetchBody.parsed none))).analysis =
      "Не удалось получить анализ" := by
  refine ⟨rfl, ?_, rfl⟩
  intro h
  exact absurd h (by decide)

/-- Claim C8, amended: every result of the AI analysis has success true; when
no (or an empty) credential is configured, or the fetch rejects, or the
response is non-success, or its body fails to parse, the result reports
source local and its text is exactly the rule engine's summary; but an HTTP
success whose parsed body lacks the message content yields source ai with a
fixed placeholder text instead of the local fallback. -/
theorem aiAnalyzeTender_local_fallback :
    ∀ (t : Tender) (now : Int) (apiKey : Option String) (outcome : FetchOutcome),
      (aiAnalyzeTender t now apiKey outcome).success = true ∧
      (externalCallFails apiKey outcome →
        (aiAnalyzeTender t now apiKey outcome).source = "local" ∧
        (aiAnalyzeTender t now apiKey outcome).analysis =
          (analyzeTenderRisks t now).summary) ∧
      (∀ (key : String) (status : Nat), key ≠ "" →
        (aiAnalyzeTender t now (some key)
          (FetchOutcome.httpResponse true status (FetchBody.parsed none))).source = "ai" ∧
        (aiAnalyzeTender t now (some key)
          (FetchOutcome.httpResponse true status (FetchBody.parsed none))).analysis =
          "Не удалось получить анализ") := by
  intro t now apiKey outcome
  refine ⟨?_, ?_, ?_⟩
  · unfold aiAnalyzeTender
    split_ifs with h
    · rfl
    · rcases outcome with msg | ⟨ok, status, body⟩
      · rfl
      · cases ok
        · rfl
        · rcases body with msg | content
          · rfl
          · rfl
  · intro hf
    rcases hf with h | h | ⟨msg, rfl⟩ | ⟨status, body, rfl⟩ | ⟨status, msg, rfl⟩
    · subst h
      exact ⟨rfl, rfl⟩
    · subst h
      exact ⟨rfl, rfl⟩
    · unfold aiAnalyzeTender
      split_ifs <;> exact ⟨rfl, rfl⟩
    · unfold aiAnalyzeTender
      split_ifs <;> exact ⟨rfl, rfl⟩
    · unfold aiAnalyzeTender
      split_ifs <;> exact ⟨rfl, rfl⟩
  · intro key status hk
    unfold aiAnalyzeTender
    rw [if_neg]
    · exact ⟨rfl, rfl⟩
    · rintro (h | h)
      · exact Option.noConfusion h
      · exact hk (Option.some.inj h)

/-- Witness for the hypotheses of the fallback theorem: a rejected fetch with a
configured key yields the local summary, and a content-free parsed body with a
configured key yields source ai. -/
theorem aiAnalyzeTender_local_fallback_witness :
    externalCallFails (some "key") (FetchOutcome.networkError "boom") ∧
    ((aiAnalyzeTender medicalTender 1738368000000 (some "key")
       (FetchOutcome.networkError "boom")).source = "local" ∧
     (aiAnalyzeTender medicalTender 1738368000000 (some "key")
       (FetchOutcome.networkError "boom")).analysis =
       (analyzeTenderRisks medicalTender 1738368000000).summary) ∧
    "key" ≠ "" ∧
    (aiAnalyzeTender medicalTender 1738368000000 (some "key")
      (FetchOutcome.httpResponse true 200 (FetchBody.parsed none))).source = "ai" :=
  ⟨Or.inr (Or.inr (Or.inl ⟨"boom", rfl⟩)),
   (aiAnalyzeTender_local_fallback medicalTender 1738368000000 (some "key")
     (FetchOutcome.networkError "boom")).2.1
     (Or.inr (Or.inr (Or.inl ⟨"boom", rfl⟩))),
   by decide,
   ((aiAnalyzeTender_local_fallback medicalTender 1738368000000 (some "key")
     (FetchOutcome.httpResponse true 200 (FetchBody.parsed none))).2.2 "key" 200
     (by decide)).1⟩
